import Mathlib

/-!
Shallow embedding of the ccm-tool smartcard management core (Python sources
under `src/`): the APDU codec (`smartcard_manager.py`), the secure-channel
engine (`secure_channel.py`), the GlobalPlatform layer (`globalplatform.py`),
the OTA SMS-PP envelope builder (`ota_manager.py`) and the persistent store
(`database_manager.py`).  Bytes are modelled as `Nat` (every value the code
produces is < 256), byte strings as `List Nat`.  Library cryptographic
primitives (3DES, AES-CBC, CMAC) are not part of the repository; they are
modelled as an abstract `Crypto` record of functions, over which the theorems
quantify.  Fallible Python code (raised exceptions) is modelled with
`Option`/`Except`.
-/

set_option maxRecDepth 8192

namespace CCM

/-- One byte of an abstract cipher interface.  The repository calls into the
`cryptography` library for 3DES-ECB, AES-CBC, AES-CMAC and 3DES-CMAC; those
primitives are opaque deterministic functions of key (and IV) and input, which
is all the claims need.  Theorems quantify over this record. -/
structure Crypto where
  tripleDesEcb : List Nat → List Nat → List Nat
  tripleDesCbc : List Nat → List Nat → List Nat → List Nat
  aesCbc : List Nat → List Nat → List Nat → List Nat
  aesCmac : List Nat → List Nat → List Nat
  tripleDesCmac : List Nat → List Nat → List Nat

/-- A dummy instantiation of the cipher interface used to evaluate concrete
runs (witnesses and counterexamples); the properties proved about session and
store state hold for every instantiation. -/
def cryptoZero : Crypto :=
  { tripleDesEcb := fun _ d => d
    tripleDesCbc := fun _ _ d => d
    aesCbc := fun _ _ d => d
    aesCmac := fun _ d => d.take 16 ++ List.replicate (16 - d.length) 0
    tripleDesCmac := fun _ d => d.take 8 ++ List.replicate (8 - d.length) 0 }

/-- Value of one hex digit, as in Python `int(c, 16)`; `none` on a non-digit. -/
def hexDigitVal (c : Char) : Option Nat :=
  if '0' ≤ c ∧ c ≤ '9' then some (c.toNat - 48)
  else if 'a' ≤ c ∧ c ≤ 'f' then some (c.toNat - 87)
  else if 'A' ≤ c ∧ c ≤ 'F' then some (c.toNat - 55)
  else none

/-- Python `int(s, 16)` on a plain hex string (`none` models `ValueError`). -/
def hexToNat (s : String) : Option Nat :=
  if s.isEmpty then none
  else s.data.foldl (fun acc c => acc.bind fun a => (hexDigitVal c).map fun d => a * 16 + d) (some 0)

/-- Helper for `bytesFromHex`: consume hex digits two at a time. -/
def hexPairs : List Char → Option (List Nat)
  | [] => some []
  | [_] => none
  | a :: b :: rest =>
    (hexDigitVal a).bind fun da =>
      (hexDigitVal b).bind fun db =>
        (hexPairs rest).map fun r => (da * 16 + db) :: r

/-- Python `bytes.fromhex(s)` (`none` models `ValueError`). -/
def bytesFromHex (s : String) : Option (List Nat) :=
  hexPairs s.data

/-- Upper-case hex character of a digit value < 16. -/
def hexCharUpper (d : Nat) : Char :=
  if d < 10 then Char.ofNat (48 + d) else Char.ofNat (55 + d)

/-- Python `bs.hex().upper()`. -/
def bytesToHexUpper (bs : List Nat) : String :=
  String.mk (bs.foldr (fun b acc => hexCharUpper (b / 16 % 16) :: hexCharUpper (b % 16) :: acc) [])

/-- Big-endian 3-byte encoding, as in `struct.pack(">I", n), last 3 bytes,` for n < 2^24. -/
def beBytes3 (n : Nat) : List Nat :=
  [n / 65536 % 256, n / 256 % 256, n % 256]

/-- Big-endian 2-byte encoding, as in `struct.pack(">H", n)`. -/
def beBytes2 (n : Nat) : List Nat :=
  [n / 256 % 256, n % 256]

/-- Big-endian value of a byte list, as in `struct.unpack(">I", 4 bytes)`
for a 3-byte `bs`. -/
def beValue (bs : List Nat) : Nat :=
  bs.foldl (fun acc b => acc * 256 + b) 0

/-- Embedding of `smartcard_manager.APDUCommand`: CLA, INS, P1, P2, optional data, Le
(constructor default `le = 0`). -/
structure APDUCommand where
  cla : Nat
  ins : Nat
  p1 : Nat
  p2 : Nat
  data : List Nat := []
  le : Nat := 0
  deriving Repr, DecidableEq

/-- Embedding of `APDUCommand.to_bytes`: `CLA INS P1 P2`, then `Lc data` only when data is
non-empty, then the Le byte only when `le > 0`. -/
def APDUCommand.toBytes (c : APDUCommand) : List Nat :=
  let apdu := [c.cla, c.ins, c.p1, c.p2]
  let apdu := if c.data.isEmpty then apdu else apdu ++ (c.data.length :: c.data)
  if c.le > 0 then apdu ++ [c.le] else apdu

/-- Embedding of `smartcard_manager.APDUResponse`: response data plus status word. -/
structure APDUResponse where
  data : List Nat
  sw : Nat
  deriving Repr, DecidableEq

/-- Embedding of `APDUResponse.is_success`: SW = 0x9000. -/
def APDUResponse.isSuccess (r : APDUResponse) : Bool :=
  r.sw == 0x9000

/-- Embedding of `ota_manager.OTAManager._pad_data`: the padding routine applied before OTA
block encryption.  `padding_length = block_size - len(data) % block_size`
(always in `1 .. block_size`), and `padding_length` copies of the byte
`padding_length` are appended. -/
def padData (data : List Nat) (blockSize : Nat) : List Nat :=
  let paddingLength := blockSize - data.length % blockSize
  data ++ List.replicate paddingLength paddingLength

/-- Inverse of PKCS#7 padding, used to state the round-trip property for
`padData`: drop as many trailing bytes as the last byte says. -/
def unpadPkcs7 (data : List Nat) : List Nat :=
  data.take (data.length - data.getLastD 0)

/-- ISO 7816-4 padding as the spec describes it (`80 00 ...` up to the block
boundary, always appended): the reference definition the claim compares
`padData` against. -/
def isoPad (data : List Nat) (blockSize : Nat) : List Nat :=
  data ++ 0x80 :: List.replicate (blockSize - (data.length + 1) % blockSize - (if (data.length + 1) % blockSize == 0 then blockSize else 0)) 0

/-- Embedding of the `data_map` of `globalplatform.GlobalPlatformManager.perform_clfdb`: the
lifecycle byte appended to the SET STATUS command data; `none` models the
`SmartcardException` raised for an unknown operation. -/
def clfdbDataMap (operation : String) : Option Nat :=
  if operation == "lock" then some 0x87
  else if operation == "unlock" then some 0x07
  else if operation == "terminate" then some 0xFF
  else none

/-- Embedding of `ota_manager.CLFDBCommand` lifecycle-state constants. -/
def CLFDBCommand.LOADED : Nat := 0x01
/-- Embedding of `CLFDBCommand.INSTALLED`. -/
def CLFDBCommand.INSTALLED : Nat := 0x03
/-- Embedding of `CLFDBCommand.SELECTABLE`. -/
def CLFDBCommand.SELECTABLE : Nat := 0x07
/-- Embedding of `CLFDBCommand.LOCKED`. -/
def CLFDBCommand.LOCKED : Nat := 0x83
/-- Embedding of `CLFDBCommand.UNLOCKED`. -/
def CLFDBCommand.UNLOCKED : Nat := 0x07

/-- Embedding of `ota_manager.OTAManager._get_lifecycle_state`: the OTA template path
operation → lifecycle-byte map; `none` models the raised `ValueError`. -/
def getLifecycleState (operation : String) : Option Nat :=
  if operation == "LOCK" then some CLFDBCommand.LOCKED
  else if operation == "UNLOCK" then some CLFDBCommand.UNLOCKED
  else if operation == "TERMINATE" then some CLFDBCommand.LOADED
  else if operation == "MAKE_SELECTABLE" then some CLFDBCommand.SELECTABLE
  else none

/-- Embedding of the command construction in `perform_clfdb`: SET STATUS with CLA 0x80, INS 0xF0,
P1 0x80 for every supported operation, data = `len(aid) || aid || lc-byte`. -/
def performClfdbCommand (targetAid : List Nat) (operation : String) : Option APDUCommand :=
  (clfdbDataMap operation).map fun lc =>
    { cla := 0x80, ins := 0xF0, p1 := 0x80, p2 := 0x00
      data := targetAid.length :: targetAid ++ [lc] }

/-- Embedding of `secure_channel.KeySet`: a static keyset (keys as byte lists). -/
structure KeySet where
  encKey : List Nat
  macKey : List Nat
  dekKey : List Nat
  keyVersion : Nat
  protocol : String
  deriving Repr, DecidableEq

/-- The `session_keys` dict built by the derivation routines.  SCP02 stores
keys under `enc`, `mac`, `kek`; SCP03 under `enc`, `mac`, `rmac`; `extra`
holds the third entry in either case. -/
structure SessionKeys where
  enc : List Nat
  mac : List Nat
  extra : List Nat
  deriving Repr, DecidableEq

/-- Embedding of `secure_channel.SecureChannelSession`. -/
structure SecureChannelSession where
  protocol : String
  securityLevel : Nat
  sessionKeys : SessionKeys
  sequenceCounter : Nat
  macChainingValue : List Nat
  deriving Repr, DecidableEq

/-- Embedding of `SecureChannelSession.increment_sequence`:
`(sequence_counter + 1) & 0xFFFFFF`. -/
def SecureChannelSession.incrementSequence (s : SecureChannelSession) : SecureChannelSession :=
  { s with sequenceCounter := (s.sequenceCounter + 1) % 0x1000000 }

/-- Embedding of `SecureChannelManager._encrypt_des3`: a 16-byte key is expanded to 24 bytes
by appending its first 8 bytes; the data is padded with zero bytes to the next
8-byte boundary (`8 - len % 8` zeros, so a full zero block when already
aligned) and 3DES-ECB encrypted. -/
def encryptDes3 (c : Crypto) (key data : List Nat) : List Nat :=
  let key := if key.length == 16 then key ++ key.take 8 else key
  let padded := data ++ List.replicate (8 - data.length % 8) 0
  c.tripleDesEcb key padded

/-- Embedding of `SecureChannelManager._derive_scp02_keys`: each session key is the first 16
bytes of `_encrypt_des3(static_key, card_challenge || host_challenge || const)`
with constants `01 82` (enc), `01 01` (mac), `01 81` (kek). -/
def deriveScp02Keys (c : Crypto) (keyset : KeySet) (hostChallenge cardChallenge : List Nat) : SessionKeys :=
  let derivationData := cardChallenge ++ hostChallenge
  { enc := (encryptDes3 c keyset.encKey (derivationData ++ [0x01, 0x82])).take 16
    mac := (encryptDes3 c keyset.macKey (derivationData ++ [0x01, 0x01])).take 16
    extra := (encryptDes3 c keyset.dekKey (derivationData ++ [0x01, 0x81])).take 16 }

/-- Embedding of `SecureChannelManager._kdf_scp03`: CMAC-AES over
`label || 0x00 || context || pack(">H", length * 8)`, truncated to `length`
bytes. -/
def kdfScp03 (c : Crypto) (key context label : List Nat) (length : Nat) : List Nat :=
  let inputData := label ++ [0x00] ++ context ++ beBytes2 (length * 8)
  (c.aesCmac key inputData).take length

/-- Embedding of `SecureChannelManager._derive_scp03_keys`: context is
`host_challenge || card_challenge`; S_ENC from the static ENC key with label
`00 00 00 04`, S_MAC and S_RMAC from the static MAC key with labels
`00 00 00 06` and `00 00 00 07`, 16 bytes each. -/
def deriveScp03Keys (c : Crypto) (keyset : KeySet) (hostChallenge cardChallenge : List Nat) : SessionKeys :=
  let context := hostChallenge ++ cardChallenge
  { enc := kdfScp03 c keyset.encKey context [0x00, 0x00, 0x00, 0x04] 16
    mac := kdfScp03 c keyset.macKey context [0x00, 0x00, 0x00, 0x06] 16
    extra := kdfScp03 c keyset.macKey context [0x00, 0x00, 0x00, 0x07] 16 }

/-- Embedding of `SecureChannelManager._verify_scp02_cryptogram`. -/
def verifyScp02Cryptogram (c : Crypto) (keys : SessionKeys) (hostChallenge cardChallenge cardCryptogram : List Nat) : Bool :=
  let expectedData := hostChallenge ++ cardChallenge ++ [0x80, 0, 0, 0, 0, 0, 0, 0]
  (encryptDes3 c keys.enc expectedData).take 8 == cardCryptogram

/-- Embedding of `SecureChannelManager._verify_scp03_cryptogram`. -/
def verifyScp03Cryptogram (c : Crypto) (keys : SessionKeys) (hostChallenge cardChallenge cardCryptogram : List Nat) (sequenceCounter : Nat) : Bool :=
  let cryptogramData := hostChallenge ++ beBytes3 sequenceCounter ++ cardChallenge ++
    [0x80, 0, 0, 0, 0, 0, 0, 0, 0, 0, 0]
  (c.aesCmac keys.enc cryptogramData).take 8 == cardCryptogram

/-- Embedding of `SecureChannelManager._calculate_scp02_host_cryptogram`. -/
def calculateScp02HostCryptogram (c : Crypto) (keys : SessionKeys) (hostChallenge cardChallenge : List Nat) : List Nat :=
  (encryptDes3 c keys.enc (cardChallenge ++ hostChallenge ++ [0x80, 0, 0, 0, 0, 0, 0, 0])).take 8

/-- Embedding of `SecureChannelManager._calculate_scp03_host_cryptogram`. -/
def calculateScp03HostCryptogram (c : Crypto) (keys : SessionKeys) (hostChallenge cardChallenge : List Nat) (sequenceCounter : Nat) : List Nat :=
  let cryptogramData := cardChallenge ++ beBytes3 sequenceCounter ++ hostChallenge ++
    [0x80, 0, 0, 0, 0, 0, 0, 0, 0, 0, 0]
  (c.aesCmac keys.enc cryptogramData).take 8

/-- Embedding of `SecureChannelManager._apply_scp02_mac`: an 8-byte MAC over
`CLA INS P1 P2 Lc data || 80 00..00` (via `_encrypt_des3` under the MAC
session key) is appended to the command data; no session state is read or
written besides the session keys. -/
def applyScp02Mac (c : Crypto) (command : APDUCommand) (keys : SessionKeys) : APDUCommand :=
  let apduData := [command.cla, command.ins, command.p1, command.p2, command.data.length] ++ command.data
  let macData := apduData ++ [0x80, 0, 0, 0, 0, 0, 0, 0]
  let mac := (encryptDes3 c keys.mac macData).take 8
  { command with data := command.data ++ mac }

/-- Embedding of `SecureChannelManager._apply_scp03_mac`: an 8-byte CMAC over
`seq[3] || CLA INS P1 P2 || Lc || data` is appended to the command data. -/
def applyScp03Mac (c : Crypto) (command : APDUCommand) (keys : SessionKeys) (sequenceCounter : Nat) : APDUCommand :=
  let macData := beBytes3 sequenceCounter ++ [command.cla, command.ins, command.p1, command.p2] ++
    [command.data.length] ++ command.data
  let mac := (c.aesCmac keys.mac macData).take 8
  { command with data := command.data ++ mac }

/-- Embedding of `SecureChannelManager._encrypt_command_data`: at security level ≥ 2 the
command data is encrypted in place — 3DES for SCP02, AES-CBC (zero IV, `80`
then zero padding to 16) for SCP03.  The session itself is not modified. -/
def encryptCommandData (c : Crypto) (session : SecureChannelSession) (command : APDUCommand) : APDUCommand :=
  if command.data.isEmpty then command
  else if session.protocol == "SCP02" then
    { command with data := encryptDes3 c session.sessionKeys.enc command.data }
  else
    let padded := command.data ++ [0x80] ++ List.replicate (15 - command.data.length % 16) 0
    { command with data := c.aesCbc session.sessionKeys.enc (List.replicate 16 0) padded }

/-- The state-and-wrap part of `SecureChannelManager.send_secure_apdu`: given
the active session, produce the wrapped command actually transmitted and the
session state after the call.  SCP02 applies the MAC; SCP03 first runs
`increment_sequence` and then MACs under the incremented counter; an unknown
protocol raises (`none`).  Response handling does not touch the session. -/
def sendSecureApduWrap (c : Crypto) (session : SecureChannelSession) (command : APDUCommand) :
    Option (APDUCommand × SecureChannelSession) :=
  if session.protocol == "SCP02" then
    let secureCommand := applyScp02Mac c command session.sessionKeys
    let secureCommand := if session.securityLevel ≥ 2 then encryptCommandData c session secureCommand else secureCommand
    some (secureCommand, session)
  else if session.protocol == "SCP03" then
    let session := session.incrementSequence
    let secureCommand := applyScp03Mac c command session.sessionKeys session.sequenceCounter
    let secureCommand := if session.securityLevel ≥ 2 then encryptCommandData c session secureCommand else secureCommand
    some (secureCommand, session)
  else none

/-- Embedding of `SecureChannelManager._establish_scp02`, with the card modelled as a
response stream and the 8-byte host challenge (`os.urandom(8)`) as a
parameter.  Returns `none` when a transmit raises (stream exhausted), else
`some (returned-bool, manager-session-after)`: the `self.session` of the manager
is written only on the all-checks-passed path, immediately before
returning `True`. -/
def establishScp02 (c : Crypto) (keyset : KeySet) (securityLevel : Nat)
    (hostChallenge : List Nat) (responses : List APDUResponse)
    (cur : Option SecureChannelSession) :
    Option (Bool × Option SecureChannelSession) :=
  match responses with
  | [] => none
  | r1 :: rest =>
    if ¬ r1.isSuccess then some (false, cur)
    else if r1.data.length < 28 then some (false, cur)
    else
      let cardChallenge := (r1.data.drop 12).take 8
      let cardCryptogram := (r1.data.drop 20).take 8
      let sessionKeys := deriveScp02Keys c keyset hostChallenge cardChallenge
      if ¬ verifyScp02Cryptogram c sessionKeys hostChallenge cardChallenge cardCryptogram then
        some (false, cur)
      else
        let hostCryptogram := calculateScp02HostCryptogram c sessionKeys hostChallenge cardChallenge
        let command : APDUCommand := { cla := 0x84, ins := 0x82, p1 := securityLevel, p2 := 0x00, data := hostCryptogram }
        let _command := applyScp02Mac c command sessionKeys
        match rest with
        | [] => none
        | r2 :: _ =>
          if ¬ r2.isSuccess then some (false, cur)
          else
            some (true, some
              { protocol := "SCP02", securityLevel := securityLevel
                sessionKeys := sessionKeys, sequenceCounter := 0
                macChainingValue := List.replicate 8 0 })

/-- Embedding of `SecureChannelManager._establish_scp03`, modelled like `establishScp02`;
the sequence counter is the big-endian value of response bytes 12–14. -/
def establishScp03 (c : Crypto) (keyset : KeySet) (securityLevel : Nat)
    (hostChallenge : List Nat) (responses : List APDUResponse)
    (cur : Option SecureChannelSession) :
    Option (Bool × Option SecureChannelSession) :=
  match responses with
  | [] => none
  | r1 :: rest =>
    if ¬ r1.isSuccess then some (false, cur)
    else if r1.data.length < 29 then some (false, cur)
    else
      let sequenceCounter := beValue ((r1.data.drop 12).take 3)
      let cardChallenge := (r1.data.drop 15).take 8
      let cardCryptogram := (r1.data.drop 23).take 8
      let sessionKeys := deriveScp03Keys c keyset hostChallenge cardChallenge
      if ¬ verifyScp03Cryptogram c sessionKeys hostChallenge cardChallenge cardCryptogram sequenceCounter then
        some (false, cur)
      else
        let hostCryptogram := calculateScp03HostCryptogram c sessionKeys hostChallenge cardChallenge sequenceCounter
        let command : APDUCommand := { cla := 0x84, ins := 0x82, p1 := securityLevel, p2 := 0x00, data := hostCryptogram }
        let _command := applyScp03Mac c command sessionKeys sequenceCounter
        match rest with
        | [] => none
        | r2 :: _ =>
          if ¬ r2.isSuccess then some (false, cur)
          else
            some (true, some
              { protocol := "SCP03", securityLevel := securityLevel
                sessionKeys := sessionKeys, sequenceCounter := sequenceCounter
                macChainingValue := List.replicate 16 0 })

/-- Embedding of `SecureChannelManager.establish_secure_channel`: dispatches on the
protocol tag of the keyset; any raised exception (unsupported protocol, transport
failure) is caught and turned into `False` with the stored session left
untouched.  The result is `(returned-bool, manager-session-after)`. -/
def establishSecureChannel (c : Crypto) (keyset : KeySet) (securityLevel : Nat)
    (hostChallenge : List Nat) (responses : List APDUResponse)
    (cur : Option SecureChannelSession) :
    Bool × Option SecureChannelSession :=
  let attempt :=
    if keyset.protocol == "SCP02" then establishScp02 c keyset securityLevel hostChallenge responses cur
    else if keyset.protocol == "SCP03" then establishScp03 c keyset securityLevel hostChallenge responses cur
    else none
  match attempt with
  | some result => result
  | none => (false, cur)

/-- Embedding of `SecureChannelManager.is_secure_channel_active`: `session is not None`. -/
def isSecureChannelActive (session : Option SecureChannelSession) : Bool :=
  session.isSome

/-- One parsed entry of a GET STATUS response
(`globalplatform.GlobalPlatformManager._parse_status_response`). -/
structure StatusObj where
  aid : List Nat
  lifeCycle : Nat
  privileges : Nat
  type : String
  deriving Repr, DecidableEq

/-- The default GP Card Manager AID `A0 00 00 01 51 00 00 00`. -/
def cardManagerAid : List Nat := [0xA0, 0x00, 0x00, 0x01, 0x51, 0x00, 0x00, 0x00]

/-- Object-type classification in `_parse_status_response`: Security-Domain
privilege bit 0x80, then ISD by AID match, then DMSD by bit 0x20, else SSD. -/
def classifyObj (aid : List Nat) (privileges : Nat) : String :=
  if privileges % 256 / 128 % 2 == 1 then
    if aid == cardManagerAid then "ISD"
    else if privileges % 64 / 32 % 2 == 1 then "DMSD"
    else "SSD"
  else "Application"

/-- Embedding of `GlobalPlatformManager._parse_status_response`: entries are
`aid_len | aid | life_cycle | privileges`; the loop stops at the first
truncated entry and returns what it has. -/
def parseStatusResponse (data : List Nat) : List StatusObj :=
  match data with
  | [] => []
  | [_] => []
  | aidLength :: rest =>
    if h : aidLength ≤ rest.length then
      let aid := rest.take aidLength
      match hm : rest.drop aidLength with
      | [] => []
      | [_] => []
      | lifeCycle :: privileges :: rest4 =>
        { aid := aid, lifeCycle := lifeCycle, privileges := privileges
          type := classifyObj aid privileges } :: parseStatusResponse rest4
    else []
termination_by data.length
decreasing_by
  simp only [List.length_cons]
  have h1 : (rest.drop aidLength).length = rest4.length + 2 := by
    rw [hm]; simp
  have h2 : (rest.drop aidLength).length ≤ rest.length := by
    simp [List.length_drop]
  omega

/-- The continuation loop of `GlobalPlatformManager.get_status`: while the
last SW was 0x6310, re-issue with P2 = 0x01 and append the parsed entries;
a non-success, non-0x6310 SW breaks; a transmit with no response left raises
(`none`), which the caller turns into an empty result. -/
def getStatusLoop : List APDUResponse → List StatusObj → Option (List StatusObj)
  | [], _ => none
  | r :: rest, objects =>
    if r.isSuccess || r.sw == 0x6310 then
      let objects := objects ++ parseStatusResponse r.data
      if r.sw == 0x6310 then getStatusLoop rest objects else some objects
    else some objects

/-- Embedding of `GlobalPlatformManager.get_status` over a response stream: the first
GET STATUS (P1 as given, P2 = 0x00) consumes the first response; while SW is
0x6310 the command is re-issued with P2 = 0x01; entries are concatenated in
the order received.  Any exception yields `[]`. -/
def getStatus (p1 : Nat) (responses : List APDUResponse) : List StatusObj :=
  let _command : APDUCommand := { cla := 0x80, ins := 0xF2, p1 := p1, p2 := 0x00, le := 0x00 }
  match responses with
  | [] => []
  | r :: rest =>
    if r.isSuccess || r.sw == 0x6310 then
      let objects := parseStatusResponse r.data
      if r.sw == 0x6310 then
        let _next : APDUCommand := { cla := 0x80, ins := 0xF2, p1 := p1, p2 := 0x01, le := 0x00 }
        match getStatusLoop rest objects with
        | some objects => objects
        | none => []
      else objects
    else []

/-- Embedding of `database_manager.KeysetRecord` (timestamps kept as opaque strings; the
clock is passed to the store operations as a `now` argument). -/
structure KeysetRecord where
  id : Option Nat
  name : String
  valueSet : String
  protocol : String
  encKey : String
  macKey : String
  dekKey : String
  keyVersion : Nat
  securityLevel : Nat
  description : String
  createdAt : String
  updatedAt : String
  isActive : Bool := true
  deriving Repr, DecidableEq, Inhabited

/-- Embedding of `database_manager.OTAMessageTemplate` / rows of the `ota_templates`
table. -/
structure OTATemplateRec where
  id : Option Nat
  name : String
  templateType : String
  spi : String
  kad : String
  tar : String
  cntr : String
  pcntr : String
  commandTemplate : String
  description : String
  createdAt : String
  updatedAt : String
  isActive : Bool := true
  deriving Repr, DecidableEq

/-- Embedding of `database_manager.OTAMessage` / rows of the `ota_messages` table.  The
dataclass documents `status` as one of PENDING, SENT, DELIVERED, FAILED, with
default "PENDING" (also the column default). -/
structure OTAMessageRec where
  id : Option Nat
  templateId : Option Nat
  targetAid : String
  operation : String
  parameters : String
  smsTpdu : String
  udh : String
  userData : String
  createdAt : String
  status : String := "PENDING"
  deriving Repr, DecidableEq, Inhabited

/-- The SQLite store of `database_manager.DatabaseManager`, as the three
tables.  The `keysets` table carries `UNIQUE(name, value_set)` with no
`is_active` component. -/
structure DBState where
  keysets : List KeysetRecord
  otaTemplates : List OTATemplateRec
  otaMessages : List OTAMessageRec
  deriving Repr, DecidableEq, Inhabited

/-- Embedding of `DatabaseManager.add_keyset`: stamps the record, inserts it; a row with
the same `(name, value_set)` — active or not, since the UNIQUE
constraint in the schema ignores `is_active` — makes SQLite raise `IntegrityError`, turned
into a `ValueError` (`.error`) with the store unchanged.  On success returns
the new rowid (AUTOINCREMENT, modelled as `length + 1`; keyset rows are never
hard-deleted) and the updated store. -/
def addKeyset (db : DBState) (keyset : KeysetRecord) (now : String) : Except String (Nat × DBState) :=
  if db.keysets.any fun r => r.name == keyset.name && r.valueSet == keyset.valueSet then
    .error ("Keyset " ++ keyset.name ++ " already exists in value set " ++ keyset.valueSet)
  else
    let newId := db.keysets.length + 1
    let row := { keyset with id := some newId, createdAt := now, updatedAt := now }
    .ok (newId, { db with keysets := db.keysets ++ [row] })

/-- Embedding of `DatabaseManager.delete_keyset`: soft delete — flip `is_active` to false
on the row with the given id; returns whether a row matched. -/
def deleteKeyset (db : DBState) (keysetId : Nat) (now : String) : Bool × DBState :=
  let matched := db.keysets.any fun r => r.id == some keysetId
  (matched,
    { db with keysets := db.keysets.map fun r =>
        if r.id == some keysetId then { r with isActive := false, updatedAt := now } else r })

/-- Embedding of `DatabaseManager.get_keyset_by_name`: the active row with the given name
and value set. -/
def getKeysetByName (db : DBState) (name valueSet : String) : Option KeysetRecord :=
  db.keysets.find? fun r => r.name == name && r.valueSet == valueSet && r.isActive

/-- Embedding of `DatabaseManager.get_ota_templates`: active templates, optionally
filtered by type (the SQL ORDER BY is irrelevant here — template names are
unique and lookups are by name). -/
def getOtaTemplates (db : DBState) (templateType : Option String) : List OTATemplateRec :=
  db.otaTemplates.filter fun t =>
    t.isActive && (match templateType with
                   | some ty => t.templateType == ty
                   | none => true)

/-- Embedding of `DatabaseManager.add_ota_message`: stamps `created_at`, inserts, returns
the new rowid (AUTOINCREMENT modelled as `length + 1`; message rows are never
deleted) and the updated store. -/
def addOtaMessage (db : DBState) (message : OTAMessageRec) (now : String) : Nat × DBState :=
  let message := { message with createdAt := now }
  let newId := db.otaMessages.length + 1
  (newId, { db with otaMessages := db.otaMessages ++ [{ message with id := some newId }] })

/-- One seeded CLFDB template of `DatabaseManager._insert_default_data`
(they differ only in name and description). -/
def defaultClfdbTemplate (n : Nat) (name description : String) : OTATemplateRec :=
  { id := some n, name := name, templateType := "CLFDB"
    spi := "02", kad := "01", tar := "000000", cntr := "000000", pcntr := "00"
    commandTemplate := "80E600\x7blifecycle\x7d14\x7baid_length\x7d\x7baid\x7d"
    description := description, createdAt := "", updatedAt := "" }

/-- The store right after `DatabaseManager._initialize_database` seeds the
default rows on a fresh database: three keysets and four CLFDB templates. -/
def defaultDB : DBState :=
  { keysets :=
      [ { id := some 1, name := "default_scp02", valueSet := "production", protocol := "SCP02"
          encKey := "404142434445464748494A4B4C4D4E4F", macKey := "404142434445464748494A4B4C4D4E4F"
          dekKey := "404142434445464748494A4B4C4D4E4F", keyVersion := 1, securityLevel := 3
          description := "Default SCP02 production keyset", createdAt := "", updatedAt := "" }
      , { id := some 2, name := "default_scp03", valueSet := "production", protocol := "SCP03"
          encKey := "404142434445464748494A4B4C4D4E4F", macKey := "404142434445464748494A4B4C4D4E4F"
          dekKey := "404142434445464748494A4B4C4D4E4F", keyVersion := 1, securityLevel := 3
          description := "Default SCP03 production keyset", createdAt := "", updatedAt := "" }
      , { id := some 3, name := "test_scp03", valueSet := "testing", protocol := "SCP03"
          encKey := "000102030405060708090A0B0C0D0E0F", macKey := "101112131415161718191A1B1C1D1E1F"
          dekKey := "202122232425262728292A2B2C2D2E2F", keyVersion := 2, securityLevel := 1
          description := "Test SCP03 keyset with different keys", createdAt := "", updatedAt := "" } ]
    otaTemplates :=
      [ defaultClfdbTemplate 1 "clfdb_lock" "CLFDB LOCK operation template"
      , defaultClfdbTemplate 2 "clfdb_unlock" "CLFDB UNLOCK operation template"
      , defaultClfdbTemplate 3 "clfdb_terminate" "CLFDB TERMINATE operation template"
      , defaultClfdbTemplate 4 "clfdb_make_selectable" "CLFDB MAKE_SELECTABLE operation template" ]
    otaMessages := [] }

/-- Embedding of `ota_manager.OTAHeader` after the hex fields of the template have been
parsed (`int(x, 16)` / `bytes.fromhex`). -/
structure OTAHeader where
  spi : Nat
  kad : Nat
  tar : List Nat
  cntr : List Nat
  pcntr : Nat
  deriving Repr, DecidableEq

/-- Turn an optional value into an `Except`, modelling a raised exception. -/
def req {α : Type} (o : Option α) (msg : String) : Except String α :=
  match o with
  | some a => .ok a
  | none => .error msg

/-- Embedding of `OTAManager._build_clfdb_command`.  Note the source-literal quirk: the
padding source expression is a doubly-escaped bytes literal (backslash,
backslash, x, 0, 0) repeated, so each padding unit is the four characters
backslash, x, 0, 0 (bytes 5C 78 30 30), not a single zero byte. -/
def buildClfdbCommand (aid : List Nat) (lifecycleState : Nat) : Except String (List Nat) :=
  if aid.length > 16 then .error "AID too long (max 16 bytes)"
  else
    .ok ([0x80, 0xE6, 0x00, lifecycleState, 0x14, aid.length] ++ aid ++
      (List.replicate (19 - aid.length) [0x5C, 0x78, 0x30, 0x30]).flatten)

/-- Embedding of `OTAManager._encrypt_command`: AES-CBC (first 16 key bytes, fresh IV
prepended) for SCP03 keysets, 3DES-CBC (8-byte IV prepended) otherwise; the
command is padded by `_pad_data` to the block size of the cipher.  The random IV
(`os.urandom`) is a parameter. -/
def encryptOtaCommand (c : Crypto) (iv : List Nat) (command : List Nat) (keysetRecord : KeysetRecord) : Except String (List Nat) :=
  if keysetRecord.protocol == "SCP03" then do
    let key ← req (bytesFromHex keysetRecord.encKey) "bad enc key hex"
    let key := key.take 16
    .ok (iv ++ c.aesCbc key iv (padData command 16))
  else do
    let key ← req (bytesFromHex keysetRecord.encKey) "bad enc key hex"
    .ok (iv ++ c.tripleDesCbc key iv (padData command 8))

/-- Embedding of `OTAManager._calculate_ota_mac`: 8 bytes of AES-CMAC (SCP03) or
3DES-CMAC over the data, keyed by the MAC key of the keyset. -/
def calculateOtaMac (c : Crypto) (data : List Nat) (keysetRecord : KeysetRecord) : Except String (List Nat) :=
  if keysetRecord.protocol == "SCP03" then do
    let key ← req (bytesFromHex keysetRecord.macKey) "bad mac key hex"
    .ok ((c.aesCmac (key.take 16) data).take 8)
  else do
    let key ← req (bytesFromHex keysetRecord.macKey) "bad mac key hex"
    .ok ((c.tripleDesCmac key data).take 8)

/-- Embedding of `OTAManager._secure_ota_command`: the secured packet starts with
`SPI | KAD | TAR | CNTR | PCNTR`; if `spi & 0x01` the payload (encrypted when
`spi & 0x02`) is appended followed by an 8-byte MAC over everything so far;
otherwise the plain command follows the header. -/
def secureOtaCommand (c : Crypto) (iv : List Nat) (command : List Nat) (h : OTAHeader) (keysetRecord : KeysetRecord) : Except String (List Nat) :=
  let securedData := [h.spi, h.kad] ++ h.tar ++ h.cntr ++ [h.pcntr]
  if h.spi &&& 0x01 ≠ 0 then do
    let payload ←
      if h.spi &&& 0x02 ≠ 0 then encryptOtaCommand c iv command keysetRecord
      else .ok command
    let securedData := securedData ++ payload
    let mac ← calculateOtaMac c securedData keysetRecord
    .ok (securedData ++ mac)
  else
    .ok (securedData ++ command)

/-- Embedding of `OTAManager._create_sms_pp_envelope`: UDH = `70 | len(secured_command)`,
user data = the secured command itself. -/
def createSmsPpEnvelope (securedCommand : List Nat) : List Nat × List Nat :=
  ([0x70, securedCommand.length], securedCommand)

/-- BCD digit packing of the originating address in
`OTAManager._create_sms_tpdu` (`int(oa[i+1]) << 4 | int(oa[i])`, `F`-padded
when odd). -/
def bcdPackDigits : List Char → List Nat
  | [] => []
  | [a] => [0xF0 + (a.toNat - 48)]
  | a :: b :: rest => ((b.toNat - 48) * 16 + (a.toNat - 48)) :: bcdPackDigits rest

/-- Embedding of `OTAManager._create_sms_tpdu`: `44` (SMS-DELIVER, UDHI set), address
length and type `91`, BCD digits of the dummy address `1234567890`, PID `7F`,
DCS `00`, 7 zero timestamp bytes, UDL, UDHL, UDH, user data. -/
def createSmsTpdu (udh userData : List Nat) : List Nat :=
  let oa := "1234567890"
  [0x44, oa.length, 0x91] ++ bcdPackDigits oa.data ++ [0x7F, 0x00] ++ List.replicate 7 0 ++
    [udh.length + userData.length + 1, udh.length] ++ udh ++ userData

/-- Pure build phase of `OTAManager.create_clfdb_sms_pp` (everything before
the `add_ota_message` persist step): template and keyset lookup, operation to
lifecycle byte, CLFDB command build, OTA securing, UDH and SMS-DELIVER TPDU
assembly, and the `OTAMessage` record (id and timestamp not yet assigned,
status field the string CREATED). -/
def clfdbBuildMessage (c : Crypto) (iv : List Nat) (db : DBState)
    (templateName targetAid operation keysetName valueSet : String) :
    Except String OTAMessageRec := do
  let templates := getOtaTemplates db (some "CLFDB")
  let template ← req (templates.find? fun t => t.name == templateName)
    ("OTA template " ++ templateName ++ " not found")
  let keysetRecord ← req (getKeysetByName db keysetName valueSet)
    ("Keyset " ++ keysetName ++ " not found in value set " ++ valueSet)
  let lifecycleState ← req (getLifecycleState operation)
    ("Unsupported CLFDB operation: " ++ operation)
  let aidBytes ← req (bytesFromHex targetAid) "bad AID hex"
  let commandData ← buildClfdbCommand aidBytes lifecycleState
  let spi ← req (hexToNat template.spi) "bad spi"
  let kad ← req (hexToNat template.kad) "bad kad"
  let tar ← req (bytesFromHex template.tar) "bad tar"
  let cntr ← req (bytesFromHex template.cntr) "bad cntr"
  let pcntr ← req (hexToNat template.pcntr) "bad pcntr"
  let otaHeader : OTAHeader := { spi := spi, kad := kad, tar := tar, cntr := cntr, pcntr := pcntr }
  let securedCommand ← secureOtaCommand c iv commandData otaHeader keysetRecord
  let (udh, userData) := createSmsPpEnvelope securedCommand
  let smsTpdu := createSmsTpdu udh userData
  .ok
    { id := none, templateId := template.id, targetAid := targetAid, operation := operation
      parameters := "\x7b\x7d", smsTpdu := bytesToHexUpper smsTpdu
      udh := bytesToHexUpper udh, userData := bytesToHexUpper userData
      createdAt := "", status := "CREATED" }

/-- Embedding of `OTAManager.create_clfdb_sms_pp`: looks up the CLFDB template
by name and the keyset by `(name, value_set)`, maps the operation to a
lifecycle byte, builds and secures the CLFDB command, wraps it in UDH and
SMS-DELIVER TPDU (`clfdbBuildMessage` above), and persists the generated
message via `add_ota_message` before returning it.  The message is written
with its status field set to the string CREATED; the template store is only
read, never written. -/
def createClfdbSmsPp (c : Crypto) (iv : List Nat) (db : DBState)
    (templateName targetAid operation keysetName valueSet : String)
    (now : String) : Except String (OTAMessageRec × DBState) := do
  let message ← clfdbBuildMessage c iv db templateName targetAid operation keysetName valueSet
  let (newId, db) := addOtaMessage db message now
  .ok ({ message with id := some newId, createdAt := now }, db)

/-- Embedding of `OTAManager.create_custom_ota_command`: like `createClfdbSmsPp` but with a
caller-supplied APDU hex string, no template-type filter, operation
`"CUSTOM"`, and the custom APDU recorded in the parameters JSON. -/
def createCustomOtaCommand (c : Crypto) (iv : List Nat) (db : DBState)
    (templateName targetAid customApdu keysetName valueSet : String)
    (now : String) : Except String (OTAMessageRec × DBState) := do
  let templates := getOtaTemplates db none
  let template ← req (templates.find? fun t => t.name == templateName)
    ("OTA template " ++ templateName ++ " not found")
  let keysetRecord ← req (getKeysetByName db keysetName valueSet)
    ("Keyset " ++ keysetName ++ " not found in value set " ++ valueSet)
  let commandData ← req (bytesFromHex customApdu) "Invalid APDU hex format"
  let spi ← req (hexToNat template.spi) "bad spi"
  let kad ← req (hexToNat template.kad) "bad kad"
  let tar ← req (bytesFromHex template.tar) "bad tar"
  let cntr ← req (bytesFromHex template.cntr) "bad cntr"
  let pcntr ← req (hexToNat template.pcntr) "bad pcntr"
  let otaHeader : OTAHeader := { spi := spi, kad := kad, tar := tar, cntr := cntr, pcntr := pcntr }
  let securedCommand ← secureOtaCommand c iv commandData otaHeader keysetRecord
  let (udh, userData) := createSmsPpEnvelope securedCommand
  let smsTpdu := createSmsTpdu udh userData
  let message : OTAMessageRec :=
    { id := none, templateId := template.id, targetAid := targetAid, operation := "CUSTOM"
      parameters := "\x7b\"custom_apdu\": \"" ++ customApdu ++ "\"\x7d"
      smsTpdu := bytesToHexUpper smsTpdu
      udh := bytesToHexUpper udh, userData := bytesToHexUpper userData
      createdAt := "", status := "CREATED" }
  let (newId, db) := addOtaMessage db message now
  .ok ({ message with id := some newId, createdAt := now }, db)

/-- The 3-byte CNTR field of a secured OTA packet: bytes 5–7, after
`SPI | KAD | TAR[3]`. -/
def cntrOfPacket (packet : List Nat) : List Nat :=
  (packet.drop 5).take 3

/-- CNTR field of a stored OTA message (its `user_data` hex string is the
secured packet). -/
def cntrOfMessage (m : OTAMessageRec) : List Nat :=
  cntrOfPacket ((bytesFromHex m.userData).getD [])

/-! Concrete fixtures: sample sessions, keysets and store runs used to
evaluate the embedded operations on explicit inputs. -/

/-- A concrete SCP02 session as `_establish_scp02` creates it (counter 0,
8-byte zero mac-chaining value, level 1). -/
def sampleScp02Session : SecureChannelSession :=
  { protocol := "SCP02", securityLevel := 1
    sessionKeys := { enc := List.replicate 16 0x40, mac := List.replicate 16 0x40, extra := List.replicate 16 0x40 }
    sequenceCounter := 0, macChainingValue := List.replicate 8 0 }

/-- A concrete SCP03 session (counter 5, 16-byte zero chaining value,
level 1). -/
def sampleScp03Session : SecureChannelSession :=
  { protocol := "SCP03", securityLevel := 1
    sessionKeys := { enc := List.replicate 16 0x40, mac := List.replicate 16 0x40, extra := List.replicate 16 0x40 }
    sequenceCounter := 5, macChainingValue := List.replicate 16 0 }

/-- A concrete GET DATA command to wrap. -/
def sampleApdu : APDUCommand :=
  { cla := 0x80, ins := 0xCA, p1 := 0x00, p2 := 0x00 }

/-- Result of wrapping `sampleApdu` in the SCP03 sample session. -/
def sampleScp03Wrap : APDUCommand × SecureChannelSession :=
  (sendSecureApduWrap cryptoZero sampleScp03Session sampleApdu).getD (sampleApdu, sampleScp03Session)

/-- A concrete SCP02 static keyset (the seeded default keyset bytes). -/
def sampleScp02Keyset : KeySet :=
  { encKey := List.replicate 16 0x40, macKey := List.replicate 16 0x40
    dekKey := List.replicate 16 0x40, keyVersion := 1, protocol := "SCP02" }

/-- First OTA builder run: CLFDB LOCK against the seeded store with the
seeded `clfdb_lock` template and `default_scp03` keyset. -/
def otaRun1 : Except String (OTAMessageRec × DBState) :=
  createClfdbSmsPp cryptoZero [] defaultDB "clfdb_lock" "A000000151000000" "LOCK" "default_scp03" "production" "t1"

/-- Message generated by the first OTA run. -/
def otaM1 : OTAMessageRec := (otaRun1.toOption.getD default).1

/-- Store state after the first OTA run. -/
def otaDb1 : DBState := (otaRun1.toOption.getD default).2

/-- Second, identical OTA builder run against the store the first run left. -/
def otaRun2 : Except String (OTAMessageRec × DBState) :=
  createClfdbSmsPp cryptoZero [] otaDb1 "clfdb_lock" "A000000151000000" "LOCK" "default_scp03" "production" "t2"

/-- Message generated by the second OTA run. -/
def otaM2 : OTAMessageRec := (otaRun2.toOption.getD default).1

/-- Store state after the second OTA run. -/
def otaDb2 : DBState := (otaRun2.toOption.getD default).2

/-- A custom OTA builder run (`create_custom_ota_command`) on the seeded
store. -/
def customRun1 : Except String (OTAMessageRec × DBState) :=
  createCustomOtaCommand cryptoZero [] defaultDB "clfdb_lock" "A000000151000000" "80CA9F7F00" "default_scp03" "production" "t1"

/-- Message generated by the custom OTA run. -/
def customM1 : OTAMessageRec := (customRun1.toOption.getD default).1

/-- Store state after the custom OTA run. -/
def customDb1 : DBState := (customRun1.toOption.getD default).2

/-- A fresh keyset record inserted (twice) in the store-uniqueness runs. -/
def sampleKeysetRecord : KeysetRecord :=
  { id := none, name := "ks_x", valueSet := "production", protocol := "SCP03"
    encKey := "000102030405060708090A0B0C0D0E0F", macKey := "000102030405060708090A0B0C0D0E0F"
    dekKey := "000102030405060708090A0B0C0D0E0F", keyVersion := 1, securityLevel := 3
    description := "", createdAt := "", updatedAt := "" }

/-- First insert of `sampleKeysetRecord` into the seeded store. -/
def ksRun1 : Except String (Nat × DBState) := addKeyset defaultDB sampleKeysetRecord "t1"

/-- Rowid of the first insert. -/
def ksId1 : Nat := (ksRun1.toOption.getD default).1

/-- Store after the first insert. -/
def ksDb1 : DBState := (ksRun1.toOption.getD default).2

/-- Store after soft-deleting the row just inserted. -/
def ksDbDeleted : DBState := (deleteKeyset ksDb1 ksId1 "t2").2

/-! Theorems.  Shared helper lemmas first, then one theorem (plus witness or
counterexample where applicable) per claim. -/

/-- Hex round trip on a digit value. -/
theorem hexDigitVal_hexCharUpper (d : Nat) (h : d < 16) :
    hexDigitVal (hexCharUpper d) = some d := by
  interval_cases d <;> decide

/-- Parsing the hex encoding of a byte list recovers the bytes modulo 256
(`bytesToHexUpper` keeps only the low 8 bits of each entry, exactly as the
Python `bytes` type does). -/
theorem hexPairs_hexEncode (l : List Nat) :
    hexPairs (l.foldr (fun b acc => hexCharUpper (b / 16 % 16) :: hexCharUpper (b % 16) :: acc) []) =
      some (l.map (· % 256)) := by
  induction l with
  | nil => rfl
  | cons b t ih =>
    simp only [List.foldr_cons, hexPairs, List.map_cons,
      hexDigitVal_hexCharUpper (b / 16 % 16) (by omega),
      hexDigitVal_hexCharUpper (b % 16) (by omega)]
    rw [ih]
    simp only [Option.bind, Option.map]
    congr 2
    omega

/-- Round trip of `bytesFromHex` after `bytesToHexUpper`. -/
theorem bytesFromHex_bytesToHexUpper (l : List Nat) :
    bytesFromHex (bytesToHexUpper l) = some (l.map (· % 256)) := by
  simpa [bytesFromHex, bytesToHexUpper] using hexPairs_hexEncode l

/-- Claim C6 (counterexample): the claim says the case-4 APDU with CLA 0x80,
INS 0xF2, P1 0x80, P2 0x00, empty data and Le 0x00 encodes to the five bytes
`80 F2 80 00 00`; in the code `to_bytes` emits the Le byte only when
`le > 0`, so the encoding is the four bytes `80 F2 80 00`. -/
theorem toBytes_le_zero_cex :
    APDUCommand.toBytes { cla := 0x80, ins := 0xF2, p1 := 0x80, p2 := 0x00, data := [], le := 0x00 } ≠
      [0x80, 0xF2, 0x80, 0x00, 0x00] := by
  decide

/-- Claim C6 (amended): encoding emits `CLA INS P1 P2 [Lc data] [Le]` with
the `Lc data` block present only for non-empty data and the Le byte present
only when `Le > 0`; in particular the APDU with CLA 0x80, INS 0xF2, P1 0x80,
P2 0x00, empty data, Le 0x00 encodes to the four bytes `80 F2 80 00`. -/
theorem toBytes_encoding :
    APDUCommand.toBytes { cla := 0x80, ins := 0xF2, p1 := 0x80, p2 := 0x00, data := [], le := 0x00 } =
      [0x80, 0xF2, 0x80, 0x00] ∧
    ∀ c : APDUCommand, c.toBytes =
      [c.cla, c.ins, c.p1, c.p2] ++
        (if c.data.isEmpty then [] else c.data.length :: c.data) ++
        (if c.le > 0 then [c.le] else []) := by
  refine ⟨by decide, fun c => ?_⟩
  simp only [APDUCommand.toBytes]
  by_cases hd : c.data.isEmpty <;> by_cases hl : c.le > 0 <;> simp [hd, hl]

/-- Claim C2 (counterexample): the claim says that on the OTA template path
LOCK maps to 0x87 and TERMINATE to 0xFF; in the code `_get_lifecycle_state`
maps LOCK to `CLFDBCommand.LOCKED = 0x83` and TERMINATE to
`CLFDBCommand.LOADED = 0x01`. -/
theorem otaLifecycle_lock_cex :
    (getLifecycleState "LOCK" = some 0x83 ∧ getLifecycleState "LOCK" ≠ some 0x87) ∧
    (getLifecycleState "TERMINATE" = some 0x01 ∧ getLifecycleState "TERMINATE" ≠ some 0xFF) := by
  decide

/-- Claim C2 (amended): both lifecycle maps are total on their supported
operations and reject everything else; `perform_clfdb` maps lock to 0x87,
unlock to 0x07, terminate to 0xFF (injectively), while the OTA template path
maps LOCK to 0x83, UNLOCK to 0x07, TERMINATE to 0x01 and MAKE_SELECTABLE to
0x07 (not injectively: UNLOCK and MAKE_SELECTABLE collide). -/
theorem clfdb_lifecycle_maps :
    (clfdbDataMap "lock" = some 0x87 ∧ clfdbDataMap "unlock" = some 0x07 ∧
     clfdbDataMap "terminate" = some 0xFF) ∧
    (getLifecycleState "LOCK" = some 0x83 ∧ getLifecycleState "UNLOCK" = some 0x07 ∧
     getLifecycleState "TERMINATE" = some 0x01 ∧ getLifecycleState "MAKE_SELECTABLE" = some 0x07) ∧
    (∀ op : String, op ∉ (["lock", "unlock", "terminate"] : List String) →
      clfdbDataMap op = none) ∧
    (∀ op : String, op ∉ (["LOCK", "UNLOCK", "TERMINATE", "MAKE_SELECTABLE"] : List String) →
      getLifecycleState op = none) := by
  refine ⟨by decide, by decide, fun op hop => ?_, fun op hop => ?_⟩
  · simp only [List.mem_cons, List.not_mem_nil, or_false, not_or] at hop
    obtain ⟨h1, h2, h3⟩ := hop
    simp [clfdbDataMap, h1, h2, h3]
  · simp only [List.mem_cons, List.not_mem_nil, or_false, not_or] at hop
    obtain ⟨h1, h2, h3, h4⟩ := hop
    simp [getLifecycleState, h1, h2, h3, h4]

/-- Claim C2 (witness): the rejection clauses of `clfdb_lifecycle_maps` at
concrete unsupported operations — `perform_clfdb` does not know
MAKE_SELECTABLE, the OTA path does not know the lower-case spelling. -/
theorem clfdb_lifecycle_maps_witness :
    clfdbDataMap "MAKE_SELECTABLE" = none ∧ getLifecycleState "lock" = none :=
  ⟨clfdb_lifecycle_maps.2.2.1 "MAKE_SELECTABLE" (by decide),
   clfdb_lifecycle_maps.2.2.2 "lock" (by decide)⟩

/-- Claim C9 (confirmed): the SCP03 session-key derivation is a pure function
of the static keyset and the two challenges — two runs are byte-identical —
and each derived key is the 16-byte truncation of the CMAC-based KDF over
`label || 0x00 || host_challenge || card_challenge || L` with L = 128 as a
big-endian 16-bit value (`00 80`) and derivation constants 0x04 (S_ENC, from
the static ENC key), 0x06 (S_MAC) and 0x07 (S_RMAC, both from the static MAC
key). -/
theorem scp03_kdf_deterministic (c : Crypto) (ks : KeySet) (hc cc : List Nat) :
    deriveScp03Keys c ks hc cc = deriveScp03Keys c ks hc cc ∧
    (deriveScp03Keys c ks hc cc).enc =
      (c.aesCmac ks.encKey ([0x00, 0x00, 0x00, 0x04] ++ [0x00] ++ (hc ++ cc) ++ [0x00, 0x80])).take 16 ∧
    (deriveScp03Keys c ks hc cc).mac =
      (c.aesCmac ks.macKey ([0x00, 0x00, 0x00, 0x06] ++ [0x00] ++ (hc ++ cc) ++ [0x00, 0x80])).take 16 ∧
    (deriveScp03Keys c ks hc cc).extra =
      (c.aesCmac ks.macKey ([0x00, 0x00, 0x00, 0x07] ++ [0x00] ++ (hc ++ cc) ++ [0x00, 0x80])).take 16 :=
  ⟨rfl, rfl, rfl, rfl⟩

/-- Claim C5 (confirmed): for any response stream whose first GET STATUS
response carries SW 0x6310 and whose re-issued (P2 = 0x01) response carries
SW 0x9000, `get_status` returns exactly the entries of the first page followed
by the entries of the second, so N + M entries in the order received. -/
theorem getStatus_paging (p1 : Nat) (d1 d2 : List Nat) :
    getStatus p1 [{ data := d1, sw := 0x6310 }, { data := d2, sw := 0x9000 }] =
      parseStatusResponse d1 ++ parseStatusResponse d2 ∧
    (getStatus p1 [{ data := d1, sw := 0x6310 }, { data := d2, sw := 0x9000 }]).length =
      (parseStatusResponse d1).length + (parseStatusResponse d2).length := by
  have h : getStatus p1 [{ data := d1, sw := 0x6310 }, { data := d2, sw := 0x9000 }] =
      parseStatusResponse d1 ++ parseStatusResponse d2 := by
    simp [getStatus, getStatusLoop, APDUResponse.isSuccess]
  exact ⟨h, by rw [h, List.length_append]⟩

/-- Dropping a trailing run of `p` copies of `p` (p ≥ 1) by reading the last
byte recovers the original list: the PKCS#7 unpad step. -/
theorem unpadPkcs7_append_replicate (m : List Nat) (p : Nat) (hp : 1 ≤ p) :
    unpadPkcs7 (m ++ List.replicate p p) = m := by
  obtain ⟨k, rfl⟩ : ∃ k, p = k + 1 := ⟨p - 1, by omega⟩
  unfold unpadPkcs7
  rw [List.replicate_succ', ← List.append_assoc, List.getLastD_concat]
  have hlen : (m ++ List.replicate k (k + 1) ++ [k + 1]).length = m.length + (k + 1) := by
    simp
  rw [hlen, show m.length + (k + 1) - (k + 1) = m.length by omega, List.append_assoc,
    List.take_left]

/-- Claim C4 (counterexample): the claim says the padding routine appends
0x80 followed by zero bytes; on the empty message with block size 16 the
code (`_pad_data`) produces sixteen 0x10 bytes — PKCS#7, not the ISO 7816-4
block `80 00 ... 00`. -/
theorem padData_iso_cex :
    padData [] 16 = List.replicate 16 16 ∧ padData [] 16 ≠ isoPad [] 16 := by
  decide

/-- Claim C4 (amended): the padding `_pad_data` applies before block
encryption is PKCS#7, not ISO 7816-4: it appends `bs - len mod bs` copies of
that count, so padding is always appended (a full block when the message is
already aligned), the result is block-aligned, and the PKCS#7 unpad
recovers every message, including the empty one and block-multiples. -/
theorem padData_pkcs7 (m : List Nat) (bs : Nat) (hbs : 0 < bs) :
    (padData m bs).length % bs = 0 ∧
    m.length < (padData m bs).length ∧
    unpadPkcs7 (padData m bs) = m := by
  have hmlt : m.length % bs < bs := Nat.mod_lt _ hbs
  have hmle : m.length % bs ≤ m.length := Nat.mod_le _ _
  refine ⟨?_, ?_, ?_⟩
  · have hlen : (padData m bs).length = m.length + (bs - m.length % bs) := by
      simp [padData]
    rw [hlen, show m.length + (bs - m.length % bs) = (m.length - m.length % bs) + bs by omega,
      Nat.add_mod_right]
    exact Nat.sub_mod_eq_zero_of_mod_eq (by simp [Nat.mod_mod_of_dvd])
  · simp only [padData, List.length_append, List.length_replicate]
    omega
  · exact unpadPkcs7_append_replicate m _ (by omega)

/-- Claim C4 (witness): `padData_pkcs7` at the concrete message `01 02 03`
and block size 16. -/
theorem padData_pkcs7_witness :
    (padData [1, 2, 3] 16).length % 16 = 0 ∧
    ([1, 2, 3] : List Nat).length < (padData [1, 2, 3] 16).length ∧
    unpadPkcs7 (padData [1, 2, 3] 16) = [1, 2, 3] :=
  padData_pkcs7 [1, 2, 3] 16 (by decide)

/-- Claim C8: both envelope builders persist the generated message before
returning it, but with the status field set to the string CREATED — not
PENDING as the OTAMessage dataclass documents (its status values are PENDING,
SENT, DELIVERED, FAILED, with PENDING the column default). -/
theorem otaMessage_persisted_as_created :
    (otaM1.status = "CREATED" ∧ otaM1 ∈ otaDb1.otaMessages) ∧
    (customM1.status = "CREATED" ∧ customM1 ∈ customDb1.otaMessages) ∧
    otaM1.status ≠ "PENDING" := by
  decide

/-- Claim C1 (counterexample): the claim says no wrapped command leaves the
counter/ICV state unchanged; wrapping a command in a concrete SCP02 session
returns the session exactly as it was — `_apply_scp02_mac` never touches the
mac-chaining value or the counter. -/
theorem scp02_wrap_state_cex :
    (sendSecureApduWrap cryptoZero sampleScp02Session sampleApdu).map Prod.snd =
      some sampleScp02Session := by
  decide

/-- Claim C1 (amended): for every wrapped command, under SCP03 the session
sequence counter advances by exactly 1 modulo 2^24 (and nothing else in the
session changes), while under SCP02 the session — mac-chaining value and
counter included — is left entirely unchanged: the SCP02 path performs no
ICV chaining. -/
theorem sendSecureApdu_counter_advance (c : Crypto) (s : SecureChannelSession)
    (cmd w : APDUCommand) (sPost : SecureChannelSession)
    (h : sendSecureApduWrap c s cmd = some (w, sPost)) :
    (s.protocol = "SCP03" →
      sPost.sequenceCounter = (s.sequenceCounter + 1) % 2 ^ 24 ∧
      sPost = { s with sequenceCounter := (s.sequenceCounter + 1) % 2 ^ 24 }) ∧
    (s.protocol = "SCP02" → sPost = s) := by
  unfold sendSecureApduWrap at h
  by_cases h02 : s.protocol = "SCP02"
  · simp only [h02, beq_self_eq_true, if_pos] at h
    have hs : sPost = s := by
      by_cases hl : s.securityLevel ≥ 2 <;> simp [hl] at h <;> exact h.2.symm
    refine ⟨fun h03 => absurd (h02 ▸ h03) (by decide), fun _ => hs⟩
  · by_cases h03 : s.protocol = "SCP03"
    · rw [h03] at h
      simp only [show (("SCP03" : String) == "SCP02") = false from by decide,
        show (("SCP03" : String) == "SCP03") = true from by decide,
        Bool.false_eq_true, if_false, if_true] at h
      have hs : sPost = s.incrementSequence := by
        by_cases hl : s.incrementSequence.securityLevel ≥ 2 <;> simp [hl] at h <;> exact h.2.symm
      subst hs
      refine ⟨fun _ => ⟨rfl, rfl⟩, fun h02x => absurd h02x h02⟩
    · rw [show (s.protocol == "SCP02") = false from by simp [h02],
        show (s.protocol == "SCP03") = false from by simp [h03]] at h
      simp at h

/-- Claim C1 (witness): `sendSecureApdu_counter_advance` applied to the
concrete SCP03 sample session with counter 5 — after one wrap the counter is
(5 + 1) mod 2^24. -/
theorem sendSecureApdu_counter_advance_witness :
    sampleScp03Wrap.2.sequenceCounter = (sampleScp03Session.sequenceCounter + 1) % 2 ^ 24 ∧
    sampleScp03Wrap.2 =
      { sampleScp03Session with
        sequenceCounter := (sampleScp03Session.sequenceCounter + 1) % 2 ^ 24 } :=
  (sendSecureApdu_counter_advance cryptoZero sampleScp03Session sampleApdu
    sampleScp03Wrap.1 sampleScp03Wrap.2 (by decide)).1 rfl

/-- Claim C7 (counterexample): the claim says a soft-deleted first insert
must allow a second insert of the same `(name, value_set)` to succeed; in
the code the UNIQUE constraint ignores `is_active`, so after soft-deleting
the only `ks_x` row (shown inactive) the re-insert still fails with the
duplicate error. -/
theorem addKeyset_soft_delete_cex :
    ((ksDbDeleted.keysets.filter fun r => r.name == "ks_x").all fun r => !r.isActive) = true ∧
    addKeyset ksDbDeleted sampleKeysetRecord "t5" =
      .error "Keyset ks_x already exists in value set production" :=
  ⟨rfl, rfl⟩

/-- Claim C7 (amended): a second insert with the same `(name, value_set)` as
an existing row fails with the duplicate store error — both while the first
row is still active and after it has been soft-deleted by `delete_keyset`,
because the UNIQUE constraint has no `is_active` component.  The failing
insert performs no write (the embedded `addKeyset` returns only the error in
that case). -/
theorem addKeyset_unique_ignores_soft_delete (db : DBState) (k1 k2 : KeysetRecord)
    (now1 now2 now3 now4 : String) (id1 : Nat) (db1 : DBState)
    (hname : k2.name = k1.name) (hvs : k2.valueSet = k1.valueSet)
    (h1 : addKeyset db k1 now1 = .ok (id1, db1)) :
    addKeyset db1 k2 now2 =
      .error ("Keyset " ++ k2.name ++ " already exists in value set " ++ k2.valueSet) ∧
    addKeyset (deleteKeyset db1 id1 now3).2 k2 now4 =
      .error ("Keyset " ++ k2.name ++ " already exists in value set " ++ k2.valueSet) := by
  unfold addKeyset at h1
  by_cases hdup : (db.keysets.any fun r => r.name == k1.name && r.valueSet == k1.valueSet) = true
  · simp [hdup] at h1
  · simp only [hdup, if_false, Bool.false_eq_true, Except.ok.injEq, Prod.mk.injEq] at h1
    obtain ⟨hid, hdb⟩ := h1
    subst hdb
    constructor
    · simp [addKeyset, List.any_append, hname, hvs]
    · simp [addKeyset, deleteKeyset, List.any_map, List.any_append, Function.comp,
        hname, hvs, ← hid]

/-- Claim C7 (witness): `addKeyset_unique_ignores_soft_delete` at the
concrete run — inserting `ks_x` into the seeded store, then inserting it
again (still active, and again after soft deletion). -/
theorem addKeyset_unique_witness :
    addKeyset ksDb1 sampleKeysetRecord "t3" =
      .error ("Keyset " ++ sampleKeysetRecord.name ++ " already exists in value set " ++
        sampleKeysetRecord.valueSet) ∧
    addKeyset (deleteKeyset ksDb1 ksId1 "t2").2 sampleKeysetRecord "t4" =
      .error ("Keyset " ++ sampleKeysetRecord.name ++ " already exists in value set " ++
        sampleKeysetRecord.valueSet) :=
  addKeyset_unique_ignores_soft_delete defaultDB sampleKeysetRecord sampleKeysetRecord
    "t1" "t3" "t2" "t4" ksId1 ksDb1 rfl rfl rfl

/-- Case analysis of `establishScp02`: a `false` return leaves the stored
session untouched; a `true` return consumed two successful responses, checked
the response length, verified the card cryptogram and installed exactly the
freshly derived session. -/
theorem establishScp02_spec (c : Crypto) (ks : KeySet) (lvl : Nat) (hc : List Nat)
    (rs : List APDUResponse) (cur : Option SecureChannelSession)
    (b : Bool) (s : Option SecureChannelSession)
    (h : establishScp02 c ks lvl hc rs cur = some (b, s)) :
    (b = false → s = cur) ∧
    (b = true → ∃ r1 r2 rest, rs = r1 :: r2 :: rest ∧ r1.sw = 0x9000 ∧ r2.sw = 0x9000 ∧
      28 ≤ r1.data.length ∧
      verifyScp02Cryptogram c (deriveScp02Keys c ks hc ((r1.data.drop 12).take 8)) hc
        ((r1.data.drop 12).take 8) ((r1.data.drop 20).take 8) = true ∧
      s = some { protocol := "SCP02", securityLevel := lvl
                 sessionKeys := deriveScp02Keys c ks hc ((r1.data.drop 12).take 8)
                 sequenceCounter := 0, macChainingValue := List.replicate 8 0 }) := by
  cases rs with
  | nil => simp [establishScp02] at h
  | cons r1 rest =>
    cases rest with
    | nil =>
      simp only [establishScp02] at h
      split_ifs at h with hA hB hC <;>
        first
          | (simp only [Option.some.injEq, Prod.mk.injEq] at h
             exact ⟨fun _ => h.2.symm, fun hbt => Bool.noConfusion (h.1.trans hbt)⟩)
          | simp at h
    | cons r2 rest2 =>
      simp only [establishScp02] at h
      split_ifs at h with hA hB hC hD <;>
        simp only [Option.some.injEq, Prod.mk.injEq] at h <;>
        first
          | exact ⟨fun _ => h.2.symm, fun hbt => Bool.noConfusion (h.1.trans hbt)⟩
          | (refine ⟨fun hbf => Bool.noConfusion (h.1.trans hbf), fun _ => ?_⟩
             refine ⟨r1, r2, rest2, rfl,
               by simpa [APDUResponse.isSuccess] using hA,
               by simpa [APDUResponse.isSuccess] using hD,
               by omega, by simpa using hC, h.2.symm⟩)

/-- Case analysis of `establishScp03`, the SCP03 analogue of
`establishScp02_spec`. -/
theorem establishScp03_spec (c : Crypto) (ks : KeySet) (lvl : Nat) (hc : List Nat)
    (rs : List APDUResponse) (cur : Option SecureChannelSession)
    (b : Bool) (s : Option SecureChannelSession)
    (h : establishScp03 c ks lvl hc rs cur = some (b, s)) :
    (b = false → s = cur) ∧
    (b = true → ∃ r1 r2 rest, rs = r1 :: r2 :: rest ∧ r1.sw = 0x9000 ∧ r2.sw = 0x9000 ∧
      29 ≤ r1.data.length ∧
      verifyScp03Cryptogram c (deriveScp03Keys c ks hc ((r1.data.drop 15).take 8)) hc
        ((r1.data.drop 15).take 8) ((r1.data.drop 23).take 8)
        (beValue ((r1.data.drop 12).take 3)) = true ∧
      s = some { protocol := "SCP03", securityLevel := lvl
                 sessionKeys := deriveScp03Keys c ks hc ((r1.data.drop 15).take 8)
                 sequenceCounter := beValue ((r1.data.drop 12).take 3)
                 macChainingValue := List.replicate 16 0 }) := by
  cases rs with
  | nil => simp [establishScp03] at h
  | cons r1 rest =>
    cases rest with
    | nil =>
      simp only [establishScp03] at h
      split_ifs at h with hA hB hC <;>
        first
          | (simp only [Option.some.injEq, Prod.mk.injEq] at h
             exact ⟨fun _ => h.2.symm, fun hbt => Bool.noConfusion (h.1.trans hbt)⟩)
          | simp at h
    | cons r2 rest2 =>
      simp only [establishScp03] at h
      split_ifs at h with hA hB hC hD <;>
        simp only [Option.some.injEq, Prod.mk.injEq] at h <;>
        first
          | exact ⟨fun _ => h.2.symm, fun hbt => Bool.noConfusion (h.1.trans hbt)⟩
          | (refine ⟨fun hbf => Bool.noConfusion (h.1.trans hbf), fun _ => ?_⟩
             refine ⟨r1, r2, rest2, rfl,
               by simpa [APDUResponse.isSuccess] using hA,
               by simpa [APDUResponse.isSuccess] using hD,
               by omega, by simpa using hC, h.2.symm⟩)

/-- Claim C10 (confirmed): `establish_secure_channel` is atomic with respect
to the stored session: whenever it returns False — unsupported protocol,
short or failed INITIALIZE UPDATE, cryptogram mismatch, failed EXTERNAL
AUTHENTICATE, or a raised exception — the stored session is exactly what it
was before the call; and whenever it returns True a complete session is
installed (so `is_secure_channel_active` is true), the protocol was one of
SCP02/SCP03, both handshake responses carried SW 0x9000, the INITIALIZE
UPDATE response was long enough, and the card cryptogram verified. -/
theorem establishSecureChannel_atomic (c : Crypto) (ks : KeySet) (lvl : Nat) (hc : List Nat)
    (rs : List APDUResponse) (cur : Option SecureChannelSession) :
    ((establishSecureChannel c ks lvl hc rs cur).1 = false →
      (establishSecureChannel c ks lvl hc rs cur).2 = cur) ∧
    ((establishSecureChannel c ks lvl hc rs cur).1 = true →
      isSecureChannelActive (establishSecureChannel c ks lvl hc rs cur).2 = true ∧
      (ks.protocol = "SCP02" ∨ ks.protocol = "SCP03") ∧
      (∃ r1 r2 rest, rs = r1 :: r2 :: rest ∧ r1.sw = 0x9000 ∧ r2.sw = 0x9000 ∧
        (ks.protocol = "SCP02" →
          28 ≤ r1.data.length ∧
          verifyScp02Cryptogram c (deriveScp02Keys c ks hc ((r1.data.drop 12).take 8)) hc
            ((r1.data.drop 12).take 8) ((r1.data.drop 20).take 8) = true) ∧
        (ks.protocol = "SCP03" →
          29 ≤ r1.data.length ∧
          verifyScp03Cryptogram c (deriveScp03Keys c ks hc ((r1.data.drop 15).take 8)) hc
            ((r1.data.drop 15).take 8) ((r1.data.drop 23).take 8)
            (beValue ((r1.data.drop 12).take 3)) = true))) := by
  unfold establishSecureChannel
  by_cases h02 : ks.protocol = "SCP02"
  · rw [show (if ks.protocol == "SCP02" then establishScp02 c ks lvl hc rs cur
        else if ks.protocol == "SCP03" then establishScp03 c ks lvl hc rs cur
        else none) = establishScp02 c ks lvl hc rs cur from by rw [h02]; simp]
    cases hE : establishScp02 c ks lvl hc rs cur with
    | none => exact ⟨fun _ => rfl, fun hbt => by cases hbt⟩
    | some p =>
      obtain ⟨b, s⟩ := p
      obtain ⟨hf, ht⟩ := establishScp02_spec c ks lvl hc rs cur b s hE
      cases b with
      | false => exact ⟨fun _ => hf rfl, fun hbt => by cases hbt⟩
      | true =>
        obtain ⟨r1, r2, rest, hrs, hr1, hr2, hlen, hver, hsome⟩ := ht rfl
        refine ⟨fun hbf => Bool.noConfusion hbf, fun _ => ?_⟩
        refine ⟨by simp [isSecureChannelActive, hsome], Or.inl h02,
          r1, r2, rest, hrs, hr1, hr2, fun _ => ⟨hlen, hver⟩, fun h03 => ?_⟩
        rw [h02] at h03
        exact absurd h03 (by decide)
  · by_cases h03 : ks.protocol = "SCP03"
    · rw [show (if ks.protocol == "SCP02" then establishScp02 c ks lvl hc rs cur
          else if ks.protocol == "SCP03" then establishScp03 c ks lvl hc rs cur
          else none) = establishScp03 c ks lvl hc rs cur from by
        rw [show (ks.protocol == "SCP02") = false from by simp [h02], h03]
        simp]
      cases hE : establishScp03 c ks lvl hc rs cur with
      | none => exact ⟨fun _ => rfl, fun hbt => by cases hbt⟩
      | some p =>
        obtain ⟨b, s⟩ := p
        obtain ⟨hf, ht⟩ := establishScp03_spec c ks lvl hc rs cur b s hE
        cases b with
        | false => exact ⟨fun _ => hf rfl, fun hbt => by cases hbt⟩
        | true =>
          obtain ⟨r1, r2, rest, hrs, hr1, hr2, hlen, hver, hsome⟩ := ht rfl
          refine ⟨fun hbf => Bool.noConfusion hbf, fun _ => ?_⟩
          refine ⟨by simp [isSecureChannelActive, hsome], Or.inr h03,
            r1, r2, rest, hrs, hr1, hr2, fun h02x => ?_, fun _ => ⟨hlen, hver⟩⟩
          rw [h03] at h02x
          exact absurd h02x (by decide)
    · rw [show (if ks.protocol == "SCP02" then establishScp02 c ks lvl hc rs cur
          else if ks.protocol == "SCP03" then establishScp03 c ks lvl hc rs cur
          else none) = none from by
        rw [show (ks.protocol == "SCP02") = false from by simp [h02],
          show (ks.protocol == "SCP03") = false from by simp [h03]]
        simp]
      exact ⟨fun _ => rfl, fun hbt => by cases hbt⟩

/-- Claim C10 (witness): `establishSecureChannel_atomic` on a concrete failed
run — empty response stream (transport exception) with a session already
stored: the call returns False and the stored session is untouched. -/
theorem establishSecureChannel_atomic_witness :
    (establishSecureChannel cryptoZero sampleScp02Keyset 3 (List.replicate 8 0) []
      (some sampleScp02Session)).2 = some sampleScp02Session :=
  (establishSecureChannel_atomic cryptoZero sampleScp02Keyset 3 (List.replicate 8 0) []
    (some sampleScp02Session)).1 (by decide)

/-- `getOtaTemplates` reads only the template table. -/
theorem getOtaTemplates_congr (db db' : DBState) (ty : Option String)
    (h : db.otaTemplates = db'.otaTemplates) :
    getOtaTemplates db ty = getOtaTemplates db' ty := by
  unfold getOtaTemplates
  rw [h]

/-- Every secured OTA packet starts with the header
`SPI | KAD | TAR | CNTR | PCNTR` taken verbatim from the OTA header, whatever
the SPI security branch does to the payload. -/
theorem secureOtaCommand_header (c : Crypto) (iv cmd : List Nat) (hd : OTAHeader)
    (kr : KeysetRecord) (res : List Nat)
    (hres : secureOtaCommand c iv cmd hd kr = .ok res) :
    ∃ rest, res = [hd.spi, hd.kad] ++ hd.tar ++ hd.cntr ++ [hd.pcntr] ++ rest := by
  simp only [secureOtaCommand] at hres
  by_cases hb1 : hd.spi &&& 0x01 ≠ 0
  · rw [if_pos hb1] at hres
    by_cases hb2 : hd.spi &&& 0x02 ≠ 0
    · rw [if_pos hb2] at hres
      cases hE : encryptOtaCommand c iv cmd kr with
      | error e => rw [hE] at hres; simp [Bind.bind, Except.bind] at hres
      | ok payload =>
        rw [hE] at hres
        simp only [Bind.bind, Except.bind] at hres
        cases hm : calculateOtaMac c
            (([hd.spi, hd.kad] ++ hd.tar ++ hd.cntr ++ [hd.pcntr]) ++ payload) kr with
        | error e => rw [hm] at hres; simp at hres
        | ok mac =>
          rw [hm] at hres
          simp only [Except.ok.injEq] at hres
          exact ⟨payload ++ mac, by rw [← hres]; try simp⟩
    · rw [if_neg hb2] at hres
      simp only [Bind.bind, Except.bind] at hres
      cases hm : calculateOtaMac c
          (([hd.spi, hd.kad] ++ hd.tar ++ hd.cntr ++ [hd.pcntr]) ++ cmd) kr with
      | error e => rw [hm] at hres; simp at hres
      | ok mac =>
        rw [hm] at hres
        simp only [Except.ok.injEq] at hres
        exact ⟨cmd ++ mac, by rw [← hres]; try simp⟩
  · rw [if_neg hb1] at hres
    simp only [Except.ok.injEq] at hres
    exact ⟨cmd, by rw [← hres]; try simp⟩

/-- Case analysis of the build phase `clfdbBuildMessage`: on success the
template was found in the store, its hex header fields parsed, and the user
data of the produced message is the hex encoding of a secured packet whose
first bytes are the header `SPI | KAD | TAR | CNTR | PCNTR` parsed from that
template — in particular CNTR is the stored counter, used as-is. -/
theorem clfdbBuildMessage_spec (c : Crypto) (iv : List Nat) (db : DBState)
    (tn aid op kn vs : String) (msg : OTAMessageRec)
    (h : clfdbBuildMessage c iv db tn aid op kn vs = .ok msg) :
    ∃ t spi kad tar cntr pcntr rest,
      (getOtaTemplates db (some "CLFDB")).find? (fun t0 => t0.name == tn) = some t ∧
      hexToNat t.spi = some spi ∧ hexToNat t.kad = some kad ∧
      bytesFromHex t.tar = some tar ∧ bytesFromHex t.cntr = some cntr ∧
      hexToNat t.pcntr = some pcntr ∧
      msg.userData = bytesToHexUpper ([spi, kad] ++ tar ++ cntr ++ [pcntr] ++ rest) := by
  simp only [clfdbBuildMessage] at h
  cases hT : (getOtaTemplates db (some "CLFDB")).find? fun t0 => t0.name == tn with
  | none => rw [hT] at h; simp [req, Bind.bind, Except.bind] at h
  | some t =>
  rw [hT] at h
  simp only [req, Bind.bind, Except.bind] at h
  cases hK : getKeysetByName db kn vs with
  | none => rw [hK] at h; simp [req, Bind.bind, Except.bind] at h
  | some kr =>
  rw [hK] at h
  simp only [req, Bind.bind, Except.bind] at h
  cases hL : getLifecycleState op with
  | none => rw [hL] at h; simp [req, Bind.bind, Except.bind] at h
  | some lc =>
  rw [hL] at h
  simp only [req, Bind.bind, Except.bind] at h
  cases hA : bytesFromHex aid with
  | none => rw [hA] at h; simp [req, Bind.bind, Except.bind] at h
  | some aidBytes =>
  rw [hA] at h
  simp only [req, Bind.bind, Except.bind] at h
  cases hC : buildClfdbCommand aidBytes lc with
  | error e => rw [hC] at h; simp [Bind.bind, Except.bind] at h
  | ok cmdData =>
  rw [hC] at h
  simp only [Bind.bind, Except.bind] at h
  cases hspi : hexToNat t.spi with
  | none => rw [hspi] at h; simp [req, Bind.bind, Except.bind] at h
  | some spi =>
  rw [hspi] at h
  simp only [req, Bind.bind, Except.bind] at h
  cases hkad : hexToNat t.kad with
  | none => rw [hkad] at h; simp [req, Bind.bind, Except.bind] at h
  | some kad =>
  rw [hkad] at h
  simp only [req, Bind.bind, Except.bind] at h
  cases htar : bytesFromHex t.tar with
  | none => rw [htar] at h; simp [req, Bind.bind, Except.bind] at h
  | some tar =>
  rw [htar] at h
  simp only [req, Bind.bind, Except.bind] at h
  cases hcntr : bytesFromHex t.cntr with
  | none => rw [hcntr] at h; simp [req, Bind.bind, Except.bind] at h
  | some cntr =>
  rw [hcntr] at h
  simp only [req, Bind.bind, Except.bind] at h
  cases hpcntr : hexToNat t.pcntr with
  | none => rw [hpcntr] at h; simp [req, Bind.bind, Except.bind] at h
  | some pcntr =>
  rw [hpcntr] at h
  simp only [req, Bind.bind, Except.bind] at h
  cases hsec : secureOtaCommand c iv cmdData
      { spi := spi, kad := kad, tar := tar, cntr := cntr, pcntr := pcntr } kr with
  | error e => rw [hsec] at h; simp [Bind.bind, Except.bind] at h
  | ok secured =>
  rw [hsec] at h
  simp only [createSmsPpEnvelope, Bind.bind, Except.bind, Except.ok.injEq] at h
  obtain ⟨rest, hrest⟩ := secureOtaCommand_header c iv cmdData
    { spi := spi, kad := kad, tar := tar, cntr := cntr, pcntr := pcntr } kr secured hsec
  refine ⟨t, spi, kad, tar, cntr, pcntr, rest, rfl, hspi, hkad, htar, hcntr, hpcntr, ?_⟩
  rw [← h]
  simpa using congrArg bytesToHexUpper hrest

/-- `createClfdbSmsPp` is the build phase followed by the persist step: on
success the message (with fresh id and timestamp) is appended to the message
table and nothing else in the store changes. -/
theorem createClfdbSmsPp_split (c : Crypto) (iv : List Nat) (db : DBState)
    (tn aid op kn vs now : String) (m : OTAMessageRec) (db' : DBState)
    (h : createClfdbSmsPp c iv db tn aid op kn vs now = .ok (m, db')) :
    ∃ msg, clfdbBuildMessage c iv db tn aid op kn vs = .ok msg ∧
      m = { msg with id := some (db.otaMessages.length + 1), createdAt := now } ∧
      db' = { db with otaMessages := db.otaMessages ++
        [{ msg with id := some (db.otaMessages.length + 1), createdAt := now }] } := by
  simp only [createClfdbSmsPp] at h
  cases hm : clfdbBuildMessage c iv db tn aid op kn vs with
  | error e => rw [hm] at h; simp [Bind.bind, Except.bind] at h
  | ok msg =>
    rw [hm] at h
    simp only [Bind.bind, Except.bind, addOtaMessage, Except.ok.injEq, Prod.mk.injEq] at h
    exact ⟨msg, rfl, h.1.symm, h.2.symm⟩

/-- Claim C3 (counterexample): the claim says two successive generations
against the same template produce secured packets whose CNTR fields differ by
exactly 1; in the code the builder neither increments the counter nor writes
it back, so both concrete runs carry the identical CNTR `00 00 00`. -/
theorem otaCounter_cex :
    cntrOfMessage otaM1 = cntrOfMessage otaM2 ∧
    beValue (cntrOfMessage otaM2) ≠ beValue (cntrOfMessage otaM1) + 1 := by
  decide

/-- Claim C3 (amended): each envelope generation reads the template counter
and uses it verbatim; the store is never written back (the template table is
unchanged after both runs), so two successive generations against the same
template produce secured packets with the same header — the same CNTR field,
a difference of 0, not 1. -/
theorem otaCounter_not_advanced (c : Crypto) (iv1 iv2 : List Nat) (db : DBState)
    (tn aid op kn vs now1 now2 : String) (m1 m2 : OTAMessageRec) (db1 db2 : DBState)
    (h1 : createClfdbSmsPp c iv1 db tn aid op kn vs now1 = .ok (m1, db1))
    (h2 : createClfdbSmsPp c iv2 db1 tn aid op kn vs now2 = .ok (m2, db2)) :
    db1.otaTemplates = db.otaTemplates ∧ db2.otaTemplates = db.otaTemplates ∧
    ∃ spiB kadB tarB cntrB pcntrB r1 r2,
      bytesFromHex m1.userData = some ([spiB, kadB] ++ tarB ++ cntrB ++ [pcntrB] ++ r1) ∧
      bytesFromHex m2.userData = some ([spiB, kadB] ++ tarB ++ cntrB ++ [pcntrB] ++ r2) := by
  obtain ⟨msg1, hb1, hm1, hdb1⟩ := createClfdbSmsPp_split _ _ _ _ _ _ _ _ _ _ _ h1
  obtain ⟨msg2, hb2, hm2, hdb2⟩ := createClfdbSmsPp_split _ _ _ _ _ _ _ _ _ _ _ h2
  have hT1 : db1.otaTemplates = db.otaTemplates := by rw [hdb1]
  have hT2 : db2.otaTemplates = db1.otaTemplates := by rw [hdb2]
  refine ⟨hT1, hT2.trans hT1, ?_⟩
  obtain ⟨t1, spi1, kad1, tar1, cntr1, pcntr1, rest1, hf1, hspi1, hkad1, htar1, hcntr1,
    hpcntr1, hu1⟩ := clfdbBuildMessage_spec _ _ _ _ _ _ _ _ _ hb1
  obtain ⟨t2, spi2, kad2, tar2, cntr2, pcntr2, rest2, hf2, hspi2, hkad2, htar2, hcntr2,
    hpcntr2, hu2⟩ := clfdbBuildMessage_spec _ _ _ _ _ _ _ _ _ hb2
  rw [getOtaTemplates_congr db1 db (some "CLFDB") hT1, hf1] at hf2
  injection hf2 with ht12
  subst ht12
  have hspieq : spi2 = spi1 := (Option.some.inj (hspi1.symm.trans hspi2)).symm
  have hkadeq : kad2 = kad1 := (Option.some.inj (hkad1.symm.trans hkad2)).symm
  have htareq : tar2 = tar1 := (Option.some.inj (htar1.symm.trans htar2)).symm
  have hcntreq : cntr2 = cntr1 := (Option.some.inj (hcntr1.symm.trans hcntr2)).symm
  have hpcntreq : pcntr2 = pcntr1 := (Option.some.inj (hpcntr1.symm.trans hpcntr2)).symm
  rw [hspieq, hkadeq, htareq, hcntreq, hpcntreq] at hu2
  have hmu1 : m1.userData = msg1.userData := by rw [hm1]
  have hmu2 : m2.userData = msg2.userData := by rw [hm2]
  refine ⟨spi1 % 256, kad1 % 256, tar1.map (· % 256), cntr1.map (· % 256), pcntr1 % 256,
    rest1.map (· % 256), rest2.map (· % 256), ?_, ?_⟩
  · rw [hmu1, hu1, bytesFromHex_bytesToHexUpper]
    simp
  · rw [hmu2, hu2, bytesFromHex_bytesToHexUpper]
    simp

/-- Claim C3 (witness): `otaCounter_not_advanced` at the two concrete seeded
runs `otaRun1`, `otaRun2`. -/
theorem otaCounter_not_advanced_witness :
    otaDb1.otaTemplates = defaultDB.otaTemplates ∧
    otaDb2.otaTemplates = defaultDB.otaTemplates ∧
    ∃ spiB kadB tarB cntrB pcntrB r1 r2,
      bytesFromHex otaM1.userData = some ([spiB, kadB] ++ tarB ++ cntrB ++ [pcntrB] ++ r1) ∧
      bytesFromHex otaM2.userData = some ([spiB, kadB] ++ tarB ++ cntrB ++ [pcntrB] ++ r2) :=
  otaCounter_not_advanced cryptoZero [] [] defaultDB "clfdb_lock" "A000000151000000" "LOCK"
    "default_scp03" "production" "t1" "t2" otaM1 otaM2 otaDb1 otaDb2 rfl rfl

end CCM
